import Mathlib

/-!
Shallow embedding of the entity resolve-or-create helpers of the
ui-automation repository (Playwright end-to-end suite for the ezyVet web UI).

The browser is modelled as an oracle environment: each structure below
records, for one call of a helper, what the live UI would have shown at each
probe point (whether the filter list rendered, the text of the first search
result, the toast texts, and so on).  Each TypeScript helper becomes a pure
Lean function from its oracle environment and its arguments to the pair of
  * the trace of UI actions it performs (in order), and
  * its outcome (`Except.ok` for a normal return, `Except.error` for a
    thrown error, carrying the thrown message).

Sources embedded:
  * src/helpers/search-helpers.ts   (searchInSidebar, searchResultAppears)
  * src/helpers/contact-helpers.ts  (createContact)
  * src/helpers/patient-helpers.ts  (createAnimal, createAnimalWithOwner,
                                     ezyVetLoginWithRetry)
  * src/pages/README.md             (EzyVetLoginPage.selectLocation)
  * src/tests/appointments/appointment-creation.spec.ts
                                    (resource-selection sub-flow)
-/

namespace UIAuto

/-- Alphabet of UI actions the helpers can perform, in source order.
`clearSearchInput`, `fillSearchInput` and `pressEnterOnSearch` are the three
steps of `searchInSidebar` (and of the manual owner search inside
`createAnimal`, which reuses the same `#leftpane` search input);
`fillField` is a form-field `fill`; `clickSave n` is
`page.getByTestId('Save').nth(n).click()`; `checkErrorToast` /
`checkSuccessToast` are the bounded `textContent` probes on the toast
locators; `checkSidebarText p` is the post-save sidebar visibility
assertion; `clickText s exact` is `page.getByText(s, exact)`.click. -/
inductive Action where
  | navigateTab (tab : String)
  | awaitFilterList
  | clearSearchInput
  | fillSearchInput (text : String)
  | pressEnterOnSearch
  | awaitFirstResult (pattern : String)
  | fillField (field : String) (value : String)
  | clickCheckbox (name : String)
  | clickDropdownIcon (idPrefix : String)
  | clickFilterItemMatching (text : String)
  | clickFirstFilterItem
  | typeSequentialInto (field : String) (text : String)
  | clickElement (selector : String)
  | typeText (text : String)
  | pressEnterKey
  | clickSave (nth : Nat)
  | waitMs (ms : Nat)
  | checkErrorToast
  | checkSuccessToast
  | checkSidebarText (pattern : String)
  | clickText (text : String) (exact : Bool)
  | awaitText (text : String)
  | awaitHeading (timeoutMs : Nat)
  | loginAttempt (n : Nat)
  deriving DecidableEq, Repr

/-- Result of one helper call: the ordered action trace and the outcome
(`Except.error msg` models a thrown error with message `msg`). -/
abbrev Run := List Action × Except String Unit

/-- Boolean test that the first list is an initial segment of the second. -/
def startsWithChars : List Char → List Char → Bool
  | [], _ => true
  | _ :: _, [] => false
  | a :: as, b :: bs => a = b && startsWithChars as bs

/-- Boolean test that `pat` occurs as a contiguous segment of the second
list. -/
def occursInChars (pat : List Char) : List Char → Bool
  | [] => pat.isEmpty
  | c :: rest => startsWithChars pat (c :: rest) || occursInChars pat rest

/-- Semantics of testing a metacharacter-free JavaScript RegExp literal
against a text, as Playwright's `toHaveText` does with a RegExp: an
unanchored match, i.e. the pattern occurs as a substring of the text. -/
def regexTestLit (pat text : String) : Bool :=
  occursInChars pat.data text.data

/-- Lower-casing of one character (ASCII range; the case folding needed by
the names and labels this suite exchanges with the UI). -/
def lowerChar (c : Char) : Char :=
  if 65 ≤ c.toNat ∧ c.toNat ≤ 90 then Char.ofNat (c.toNat + 32) else c

/-- Semantics of Playwright's `hasText:` / `getByText(s, exact: false)`
string filter: case-insensitive substring containment. -/
def hasTextCI (elementText needle : String) : Bool :=
  occursInChars (needle.data.map lowerChar) (elementText.data.map lowerChar)

/-- Boolean test that a string ends in a space character. -/
def endsInSpace (s : String) : Bool :=
  s.data.getLast? = some ' '

/-- Pattern the contact resolver matches against the first search result:
the source builds the RegExp from the template "-  lastName, firstName"
(a dash glyph, two spaces, then "lastName, firstName");
contact-helpers.ts line 62. -/
def contactResolvePattern (lastName firstName : String) : String :=
  "-  " ++ lastName ++ ", " ++ firstName

/-- Pattern the patient resolver matches against the first search result:
the animal name wrapped in double quotes; patient-helpers.ts line 32. -/
def animalResolvePattern (animalName : String) : String :=
  "\"" ++ animalName ++ "\""

/-- Trace of `searchInSidebar` (search-helpers.ts lines 9-19): clear the
`#leftpane` search input, fill the query, press Enter. -/
def searchInSidebar (query : String) : List Action :=
  [Action.clearSearchInput, Action.fillSearchInput query, Action.pressEnterOnSearch]

/-- Contact types of contact-helpers.ts lines 5-11. -/
inductive ContactType where
  | Customer
  | Supplier
  | Vet
  | Syndicate
  | StaffMember
  | Pharmacy
  deriving DecidableEq, Repr

/-- Checkbox label used for each contact type (accessible name of the
checkbox clicked by `createContact`). -/
def ContactType.label : ContactType → String
  | .Customer => "Customer"
  | .Supplier => "Supplier"
  | .Vet => "Vet"
  | .Syndicate => "Syndicate"
  | .StaffMember => "Staff Member"
  | .Pharmacy => "Pharmacy"

/-- Normalization of the `contactType` parameter of `createContact`
(contact-helpers.ts lines 74-79): a single type is wrapped into a
one-element list, an array is taken as-is. -/
def normalizeContactTypes : ContactType ⊕ List ContactType → List ContactType
  | .inl t => [t]
  | .inr l => l

/-- Oracle environment for one `createContact` call: what the UI showed at
each probe point of contact-helpers.ts lines 45-117. -/
structure ContactEnv where
  /-- Whether the first `#filterlist li` became visible within 10 s. -/
  filterListVisible : Bool
  /-- Text of the first `#filterlist li` during the 5 s resolve probe
  (`none` when no result rendered within the window). -/
  firstResultText : Option String
  /-- Whether the `EmailPhoneType` search input resolved to "Email". -/
  emailTypeResolves : Bool
  /-- Whether the `.sidebar` showed "lastName, firstName" within 3 s after
  Save. -/
  sidebarShowsContact : Bool

/-- Resolve-phase existence test of `createContact`: Playwright
`toHaveText(first result, RegExp)` succeeds iff a first result rendered and
the pattern "-  lastName, firstName" matches its text. -/
def contactResolveHit (env : ContactEnv) (firstName lastName : String) : Bool :=
  match env.firstResultText with
  | some t => regexTestLit (contactResolvePattern lastName firstName) t
  | none => false

/-- Embedding of `createContact` (contact-helpers.ts lines 45-117):
navigate to Contacts, wait for the filter list, sidebar-search
"firstName lastName", probe the first result against the
"-  lastName, firstName" pattern; on a hit return immediately; otherwise
click the pre-checked Customer checkbox, click each desired type checkbox,
fill first/last name and the email field, resolve the EmailPhoneType
search input, click Save, and assert the new contact is visible in the
sidebar within 3 s. -/
def createContact (env : ContactEnv) (firstName lastName : String)
    (contactType : ContactType ⊕ List ContactType) : Run :=
  let tNav := [Action.navigateTab "Contacts", Action.awaitFilterList]
  if env.filterListVisible = false then
    (tNav, Except.error "TimeoutError: filter list not visible")
  else
    let tSearch := tNav ++ searchInSidebar (firstName ++ " " ++ lastName) ++
      [Action.awaitFirstResult (contactResolvePattern lastName firstName)]
    if contactResolveHit env firstName lastName then
      (tSearch, Except.ok ())
    else
      let contactTypeList := normalizeContactTypes contactType
      let tChecks := tSearch ++ Action.clickCheckbox "Customer" ::
        contactTypeList.map (fun t => Action.clickCheckbox t.label)
      let tFill := tChecks ++
        [Action.fillField "First Name" firstName,
         Action.fillField "Last Name" lastName,
         Action.fillField "EmailPhone.1.emailphonedata_content" "test@test.com",
         Action.typeSequentialInto "EmailPhoneType" "Email"]
      if env.emailTypeResolves = false then
        (tFill, Except.error "TimeoutError: EmailPhoneType did not resolve")
      else
        let tSave := tFill ++ [Action.clickSave 0,
          Action.checkSidebarText (lastName ++ ", " ++ firstName)]
        if env.sidebarShowsContact then (tSave, Except.ok ())
        else (tSave, Except.error "TimeoutError: contact not visible in sidebar")

/-- Oracle environment for one `createAnimal` call
(patient-helpers.ts lines 18-130). -/
structure AnimalEnv where
  /-- Whether the first `#filterlist li` became visible within 10 s. -/
  filterListVisible : Bool
  /-- Text of the first `#filterlist li` during the 5 s resolve probe. -/
  firstResultText : Option String
  /-- Texts of the `#filterlist li` items rendered after the owner search
  inside the client-contact dropdown. -/
  ownerFilterItems : List String
  /-- Whether the `AnimalColour` search input resolved to "Bald". -/
  colourResolves : Bool
  /-- Whether the `animaldata_estimated` checkbox reported checked after
  typing the age. -/
  ageEstimatedChecked : Bool
  /-- Text content of the first error-toast element within its 2 s probe
  window (`none` when the probe timed out, i.e. no error toast). -/
  errorToast : Option String
  /-- Text content of the first success-toast element within its 2 s probe
  window (`none` when the probe timed out, i.e. no success toast). -/
  successToast : Option String
  /-- Whether `.sidebar` showed the animal name within the 5 s fallback
  re-check window. -/
  sidebarShowsAnimal : Bool

/-- Resolve-phase existence test of `createAnimal`: the first result's text
must match the RegExp built from the quoted animal name. -/
def animalResolveHit (env : AnimalEnv) (animalName : String) : Bool :=
  match env.firstResultText with
  | some t => regexTestLit (animalResolvePattern animalName) t
  | none => false

/-- Tag-entry key strokes (patient-helpers.ts lines 88-91): for each tag,
type the text then press Enter. -/
def tagEntryActions : List String → List Action
  | [] => []
  | tag :: rest => Action.typeText tag :: Action.pressEnterKey :: tagEntryActions rest

/-- Actions of the optional tags block (patient-helpers.ts lines 82-92):
click the tag list under the "General" label, then enter each tag. -/
def tagActions : Option (List String) → List Action
  | none => []
  | some l => Action.clickElement "General tags ul" :: tagEntryActions l

/-- JavaScript truthiness of a toast probe result
(`textContent(...).catch(() => null)`): `null` (probe timeout) and the
empty string are falsy; any nonempty text is truthy. The source guards
both toast branches with `if (errorToast)` / `if (successToast)`, so an
empty-text probe result falls through exactly like an absent toast. -/
def toastTruthy : Option String → Bool
  | none => false
  | some s => !s.data.isEmpty

/-- Post-save outcome interpretation of `createAnimal`
(patient-helpers.ts lines 94-129), as the suffix of actions it performs
and its outcome: click `Save` (index 0), wait 3000 ms, probe the error
toast first and throw its text when it is truthy (nonempty); otherwise
probe the success toast and return when it is truthy; otherwise fall back
to a positive sidebar re-check (5 s) of the animal name, failing when
that also fails. -/
def animalSaveOutcome (env : AnimalEnv) (animalName : String) : Run :=
  let t1 := [Action.clickSave 0, Action.waitMs 3000, Action.checkErrorToast]
  if toastTruthy env.errorToast then
    (t1, Except.error ("Failed to create animal: " ++ env.errorToast.getD ""))
  else
    let t2 := t1 ++ [Action.checkSuccessToast]
    if toastTruthy env.successToast then
      (t2, Except.ok ())
    else
      let t3 := t2 ++ [Action.checkSidebarText animalName]
      if env.sidebarShowsAnimal then (t3, Except.ok ())
      else (t3, Except.error "TimeoutError: animal not visible in sidebar")

/-- Shared tail of the `createAnimal` create path from the colour field on
(patient-helpers.ts lines 69-129), as the suffix of actions it performs
and its outcome: wait, resolve the colour search input, optionally fill
the age (asserting the estimated checkbox), optionally enter tags, then
save and interpret the outcome. -/
def animalFormTail (env : AnimalEnv) (animalName : String) (age : Option Nat)
    (tags : Option (List String)) : Run :=
  let tC := [Action.waitMs 2000,
    Action.typeSequentialInto "AnimalColour" "Bald"]
  if env.colourResolves = false then
    (tC, Except.error "TimeoutError: AnimalColour did not resolve")
  else
    match age with
    | some a =>
      let tA := tC ++ [Action.clickElement "input-value-Not-Set",
        Action.typeText (toString a)]
      if env.ageEstimatedChecked = false then
        (tA, Except.error "estimated checkbox not checked")
      else
        let out := animalSaveOutcome env animalName
        (tA ++ tagActions tags ++ out.1, out.2)
    | none =>
      let out := animalSaveOutcome env animalName
      (tC ++ tagActions tags ++ out.1, out.2)

/-- Embedding of `createAnimal` (patient-helpers.ts lines 18-130):
navigate to Patients, wait for the filter list, sidebar-search the animal
name, probe the first result against the quoted-name pattern; on a hit
return immediately; otherwise fill `animaldata_name`, open the
client-contact dropdown, fill the owner name into the `#leftpane` search
input and press Enter, then click the filter item whose text contains the
owner name when one is visible within 2 s, else click the first item of
the list (failing only when the list is empty); then run the shared form
tail (colour, optional age and tags, save, outcome). -/
def createAnimal (env : AnimalEnv) (animalName ownerName : String)
    (age : Option Nat) (tags : Option (List String)) : Run :=
  let tNav := [Action.navigateTab "Patients", Action.awaitFilterList]
  if env.filterListVisible = false then
    (tNav, Except.error "TimeoutError: filter list not visible")
  else
    let tSearch := tNav ++ searchInSidebar animalName ++
      [Action.awaitFirstResult (animalResolvePattern animalName)]
    if animalResolveHit env animalName then
      (tSearch, Except.ok ())
    else
      let tForm := tSearch ++
        [Action.fillField "animaldata_name" animalName,
         Action.clickDropdownIcon "clientcontactDropdown", Action.waitMs 1500,
         Action.fillSearchInput ownerName, Action.pressEnterOnSearch,
         Action.waitMs 1000]
      let matching := env.ownerFilterItems.filter (fun item => hasTextCI item ownerName)
      if matching.isEmpty = false then
        let tail := animalFormTail env animalName age tags
        (tForm ++ Action.clickFilterItemMatching ownerName :: tail.1, tail.2)
      else if env.ownerFilterItems.isEmpty = false then
        let tail := animalFormTail env animalName age tags
        (tForm ++ Action.clickFirstFilterItem :: tail.1, tail.2)
      else
        (tForm ++ [Action.clickFirstFilterItem],
         Except.error "TimeoutError: owner filter list empty")

/-- Oracle environment for one `createAnimalWithOwner` call
(patient-helpers.ts lines 145-218). -/
structure WithOwnerEnv where
  /-- Whether the `AnimalColour` search input resolved to "Bald". -/
  colourResolves : Bool
  /-- Whether the `animaldata_estimated` checkbox reported checked after
  typing the age. -/
  ageEstimatedChecked : Bool
  /-- Text content of the first error-toast element within its 2 s probe
  window. -/
  errorToast : Option String
  /-- Text content of the first success-toast element within its 2 s probe
  window. -/
  successToast : Option String

/-- Post-save outcome interpretation of `createAnimalWithOwner`
(patient-helpers.ts lines 189-218): click the second `Save` control
(`nth(1)`, patient tab), wait 3000 ms, probe the error toast first and
throw its text when it is truthy (nonempty; the source's `if (errorToast)`
treats an empty text as no toast); otherwise probe the success toast; it
then returns normally whether or not the success toast was truthy: there
is no sidebar re-check in this variant. -/
def withOwnerSaveOutcome (env : WithOwnerEnv) : Run :=
  let t1 := [Action.clickSave 1, Action.waitMs 3000, Action.checkErrorToast]
  if toastTruthy env.errorToast then
    (t1, Except.error ("Failed to create animal: " ++ env.errorToast.getD ""))
  else
    let t2 := t1 ++ [Action.checkSuccessToast]
    if toastTruthy env.successToast then
      (t2, Except.ok ())
    else
      (t2, Except.ok ())

/-- Embedding of `createAnimalWithOwner` (patient-helpers.ts lines
145-218): assumes the patient form is already open (opened via
"New Patient" from the contact record), fills `animaldata_name`
immediately — there is no navigation, no sidebar search and no resolve
probe — resolves the colour field, optionally fills age and tags, waits,
and saves via the second Save control. The owner name parameters are
accepted but never used for any search: the owner field is pre-populated
by the host page. -/
def createAnimalWithOwner (env : WithOwnerEnv)
    (animalName ownerFirstName ownerLastName : String)
    (age : Option Nat) (tags : Option (List String)) : Run :=
  let t0 := [Action.fillField "animaldata_name" animalName,
    Action.waitMs 1000,
    Action.typeSequentialInto "AnimalColour" "Bald"]
  if env.colourResolves = false then
    (t0, Except.error "TimeoutError: AnimalColour did not resolve")
  else
    match age with
    | some a =>
      let tA := t0 ++ [Action.clickElement "input-value-Not-Set",
        Action.typeText (toString a)]
      if env.ageEstimatedChecked = false then
        (tA, Except.error "estimated checkbox not checked")
      else
        let out := withOwnerSaveOutcome env
        (tA ++ tagActions tags ++ Action.waitMs 2000 :: out.1, out.2)
    | none =>
      let out := withOwnerSaveOutcome env
      (t0 ++ tagActions tags ++ Action.waitMs 2000 :: out.1, out.2)

/-- Oracle environment for login: `attemptOutcome n` is the outcome of the
n-th full `ezyVetLogin` sequence (`none` for success, `some msg` for a
thrown error with message `msg`). -/
structure LoginEnv where
  attemptOutcome : Nat → Option String

/-- Terminal error message of `ezyVetLoginWithRetry`
(patient-helpers.ts line 404): the template renders the attempt count and
the last error message (the JavaScript optional chain renders "undefined"
when no attempt ever ran). -/
def loginFailureMessage (maxRetries : Nat) (lastError : Option String) : String :=
  "Login failed after " ++ toString maxRetries ++ " attempts: " ++
    (match lastError with | some m => m | none => "undefined")

/-- Loop body of `ezyVetLoginWithRetry` (patient-helpers.ts lines
385-404), structural on the number of remaining iterations: run the full
login sequence for the current attempt; on success return immediately; on
a thrown error record it and, when more attempts remain
(`attempt < maxRetries`), wait a fixed 2000 ms before the next attempt;
when the loop is exhausted throw the terminal message. -/
def loginRetryAux (env : LoginEnv) (maxRetries : Nat) :
    Nat → Nat → Option String → Run
  | 0, _, lastError => ([], Except.error (loginFailureMessage maxRetries lastError))
  | remaining + 1, attempt, _ =>
    match env.attemptOutcome attempt with
    | none => ([Action.loginAttempt attempt], Except.ok ())
    | some msg =>
      let rest := loginRetryAux env maxRetries remaining (attempt + 1) (some msg)
      if attempt < maxRetries then
        (Action.loginAttempt attempt :: Action.waitMs 2000 :: rest.1, rest.2)
      else
        (Action.loginAttempt attempt :: rest.1, rest.2)

/-- Embedding of `ezyVetLoginWithRetry` (patient-helpers.ts lines
378-405): attempts run from 1 to `maxRetries` (default 2). -/
def ezyVetLoginWithRetry (env : LoginEnv) (maxRetries : Nat := 2) : Run :=
  loginRetryAux env maxRetries maxRetries 1 none

/-- Oracle environment for `EzyVetLoginPage.selectLocation`
(src/pages/README.md lines 303-326). -/
structure LocationEnv where
  /-- Whether the "Please select a location" heading became visible within
  the 10 s wait. -/
  headingAppears : Bool
  /-- Whether the element matched by `getByText(locationName, exact:false)`
  became visible within its 5 s wait. -/
  locationVisible : Bool

/-- Semantics of the JavaScript `||` default over an optional string
(`location || 'Master branch (Database)'`): `undefined` and the empty
string are both falsy and fall back to the default. -/
def jsOrDefault (s : Option String) (dflt : String) : String :=
  match s with
  | none => dflt
  | some v => if v.data.isEmpty then dflt else v

/-- Embedding of `EzyVetLoginPage.selectLocation`: wait up to 10000 ms for
the "Please select a location" heading; when it never appears the catch
branch returns normally (login already complete); when it appears the
location name (`location || 'Master branch (Database)'`, so an absent or
empty argument falls back to the default) is awaited and clicked via
`getByText(locationName, exact: false)`, a substring match. -/
def selectLocation (env : LocationEnv) (location : Option String) : Run :=
  let t0 := [Action.awaitHeading 10000]
  if env.headingAppears = false then
    (t0, Except.ok ())
  else
    let locationName := jsOrDefault location "Master branch (Database)"
    let t1 := t0 ++ [Action.awaitText locationName]
    if env.locationVisible = false then
      (t1, Except.error "TimeoutError: location element not visible")
    else
      (t1 ++ [Action.clickText locationName false], Except.ok ())

/-- Search text typed into the People/Resources field by the appointment
creation test (appointment-creation.spec.ts line 76:
`resourceField.fill('Dr ')`) — note the deliberately appended trailing
space. -/
def appointmentResourceSearchText : String := "Dr "

/-- Resource-selection sub-flow of the appointment creation test
(appointment-creation.spec.ts lines 69-80): click the magnifying-glass
icon of the Resource dropdown, wait, fill "Dr " (trailing space) into the
resource field, wait for the filtered list, click the first dropdown item
whose text matches "Dr", wait. -/
def appointmentResourceFlow : List Action :=
  [Action.clickDropdownIcon "Resource", Action.waitMs 1500,
   Action.fillField "Resource" appointmentResourceSearchText, Action.waitMs 1500,
   Action.clickFilterItemMatching "Dr", Action.waitMs 1000]

/-- Test for a Save click (`getByTestId` Save, any positional index). -/
def isSaveClick : Action → Bool
  | .clickSave _ => true
  | _ => false

/-- Test for a form-field fill (`fillField`; the sidebar search input fill
is a separate constructor and does not count). -/
def isFormFill : Action → Bool
  | .fillField _ _ => true
  | _ => false

/-- Test for a checkbox click. -/
def isCheckboxClick : Action → Bool
  | .clickCheckbox _ => true
  | _ => false

/-- Test for the success-toast probe. -/
def isSuccessToastCheck : Action → Bool
  | .checkSuccessToast => true
  | _ => false

/-- Test for the error-toast probe. -/
def isErrorToastCheck : Action → Bool
  | .checkErrorToast => true
  | _ => false

/-- Test for the post-save sidebar existence re-check. -/
def isSidebarRecheck : Action → Bool
  | .checkSidebarText _ => true
  | _ => false

/-- Test for an action belonging to the resolve/search phase: tab
navigation, sidebar search steps, or the first-result existence probe. -/
def isResolvePhaseAction : Action → Bool
  | .navigateTab _ => true
  | .awaitFilterList => true
  | .clearSearchInput => true
  | .fillSearchInput _ => true
  | .pressEnterOnSearch => true
  | .awaitFirstResult _ => true
  | _ => false

/-- Test for the fallback click on the first filter-list item. -/
def isFirstItemClick : Action → Bool
  | .clickFirstFilterItem => true
  | _ => false

/-- Test for a click on the filter-list item matched by owner name. -/
def isMatchItemClick : Action → Bool
  | .clickFilterItemMatching _ => true
  | _ => false

/-- Number of Save clicks in a trace. -/
def saveClickCount (tr : List Action) : Nat := tr.countP isSaveClick

/-- Number of form-field fills in a trace. -/
def formFillCount (tr : List Action) : Nat := tr.countP isFormFill

/-- Number of checkbox clicks in a trace. -/
def checkboxClickCount (tr : List Action) : Nat := tr.countP isCheckboxClick

/-- Number of success-toast probes in a trace. -/
def successCheckCount (tr : List Action) : Nat := tr.countP isSuccessToastCheck

/-- Number of error-toast probes in a trace. -/
def errorCheckCount (tr : List Action) : Nat := tr.countP isErrorToastCheck

/-- Number of sidebar existence re-checks in a trace. -/
def sidebarRecheckCount (tr : List Action) : Nat := tr.countP isSidebarRecheck

/-- Number of resolve/search-phase actions in a trace. -/
def resolvePhaseCount (tr : List Action) : Nat := tr.countP isResolvePhaseAction

/-- Number of fallback first-item clicks in a trace. -/
def firstItemClickCount (tr : List Action) : Nat := tr.countP isFirstItemClick

/-- Number of owner-matched item clicks in a trace. -/
def matchItemClickCount (tr : List Action) : Nat := tr.countP isMatchItemClick

/-- Label of a checkbox click, `none` for any other action. -/
def checkboxLabelOf : Action → Option String
  | Action.clickCheckbox n => some n
  | _ => none

/-- Labels of the checkboxes clicked in a trace, in click order. -/
def checkboxClickLabels (tr : List Action) : List String :=
  tr.filterMap checkboxLabelOf

/-- Text of a `#leftpane` search-input fill, `none` for any other action. -/
def searchFillTextOf : Action → Option String
  | Action.fillSearchInput s => some s
  | _ => none

/-- Texts filled into the `#leftpane` search input, in order. -/
def fillSearchTexts (tr : List Action) : List String :=
  tr.filterMap searchFillTextOf

/-- Actions of the `createAnimal` create path up to (not including) the
owner filter-item click: the resolve phase followed by the name fill, the
client-contact dropdown opening and the owner search. -/
def animalCreatePrefix (animalName ownerName : String) : List Action :=
  [Action.navigateTab "Patients", Action.awaitFilterList, Action.clearSearchInput,
   Action.fillSearchInput animalName, Action.pressEnterOnSearch,
   Action.awaitFirstResult (animalResolvePattern animalName),
   Action.fillField "animaldata_name" animalName,
   Action.clickDropdownIcon "clientcontactDropdown", Action.waitMs 1500,
   Action.fillSearchInput ownerName, Action.pressEnterOnSearch, Action.waitMs 1000]

/-- Toggle semantics of one checkbox click on the set of checked labels. -/
def toggleLabel (checked : Finset String) (n : String) : Finset String :=
  if n ∈ checked then checked.erase n else insert n checked

/-- Final set of checked checkbox labels after replaying every checkbox
click of a trace over an initial checked set, each click toggling. -/
def finalCheckedState (initial : Finset String) (tr : List Action) : Finset String :=
  (checkboxClickLabels tr).foldl toggleLabel initial

lemma countP_tagEntryActions (p : Action → Bool)
    (h1 : ∀ s, p (Action.typeText s) = false) (h2 : p Action.pressEnterKey = false) :
    ∀ l : List String, (tagEntryActions l).countP p = 0
  | [] => rfl
  | t :: ts => by
    simp [tagEntryActions, List.countP_cons, h1, h2, countP_tagEntryActions p h1 h2 ts]

lemma countP_tagActions (p : Action → Bool)
    (h1 : ∀ s, p (Action.typeText s) = false) (h2 : p Action.pressEnterKey = false)
    (h3 : ∀ s, p (Action.clickElement s) = false) (tg : Option (List String)) :
    (tagActions tg).countP p = 0 := by
  cases tg with
  | none => rfl
  | some l => simp [tagActions, List.countP_cons, h3, countP_tagEntryActions p h1 h2 l]

lemma countP_checkboxClicks (p : Action → Bool)
    (h : ∀ s, p (Action.clickCheckbox s) = false) (l : List ContactType) :
    (l.map fun t => Action.clickCheckbox t.label).countP p = 0 := by
  induction l with
  | nil => rfl
  | cons t ts ih => simp [List.countP_cons, h, ih]

lemma animalSaveOutcome_error (env : AnimalEnv) (n msg : String)
    (h : env.errorToast = some msg) (hm : msg.data.isEmpty = false) :
    animalSaveOutcome env n =
      ([Action.clickSave 0, Action.waitMs 3000, Action.checkErrorToast],
       Except.error ("Failed to create animal: " ++ msg)) := by
  simp [animalSaveOutcome, toastTruthy, h, hm]

lemma animalSaveOutcome_success (env : AnimalEnv) (n s : String)
    (hE : toastTruthy env.errorToast = false) (hS : env.successToast = some s)
    (hs : s.data.isEmpty = false) :
    animalSaveOutcome env n =
      ([Action.clickSave 0, Action.waitMs 3000, Action.checkErrorToast,
        Action.checkSuccessToast], Except.ok ()) := by
  have hSt : toastTruthy env.successToast = true := by rw [hS]; simp [toastTruthy, hs]
  simp [animalSaveOutcome, hE, hSt]

lemma animalSaveOutcome_unknown (env : AnimalEnv) (n : String)
    (hE : toastTruthy env.errorToast = false) (hS : toastTruthy env.successToast = false) :
    animalSaveOutcome env n =
      ([Action.clickSave 0, Action.waitMs 3000, Action.checkErrorToast,
        Action.checkSuccessToast, Action.checkSidebarText n],
       if env.sidebarShowsAnimal then Except.ok ()
       else Except.error "TimeoutError: animal not visible in sidebar") := by
  by_cases h : env.sidebarShowsAnimal <;> simp [animalSaveOutcome, hE, hS, h]

lemma saveClickCount_animalSaveOutcome (env : AnimalEnv) (n : String) :
    saveClickCount (animalSaveOutcome env n).1 = 1 := by
  unfold animalSaveOutcome
  cases hE : toastTruthy env.errorToast <;> cases hS : toastTruthy env.successToast <;>
    by_cases h : env.sidebarShowsAnimal <;> simp [hE, hS, h] <;> rfl

lemma fillSearchTexts_animalSaveOutcome (env : AnimalEnv) (n : String) :
    fillSearchTexts (animalSaveOutcome env n).1 = [] := by
  unfold animalSaveOutcome
  cases hE : toastTruthy env.errorToast <;> cases hS : toastTruthy env.successToast <;>
    by_cases h : env.sidebarShowsAnimal <;> simp [hE, hS, h] <;> rfl

lemma successCheckCount_animalSaveOutcome (env : AnimalEnv) (n : String)
    (hE : toastTruthy env.errorToast = false) :
    ((animalSaveOutcome env n).1).countP isSuccessToastCheck = 1 := by
  unfold animalSaveOutcome
  cases hS : toastTruthy env.successToast <;> by_cases h : env.sidebarShowsAnimal <;>
    simp [hE, hS, h] <;> rfl

lemma animalFormTail_result (env : AnimalEnv) (n : String) (age : Option Nat)
    (tags : Option (List String)) (hc : env.colourResolves = true)
    (ha : age = none ∨ env.ageEstimatedChecked = true) :
    (animalFormTail env n age tags).2 = (animalSaveOutcome env n).2 := by
  rcases age with _ | a
  · simp [animalFormTail, hc]
  · rcases ha with h | h
    · simp at h
    · simp [animalFormTail, hc, h]

lemma countP_animalFormTail (env : AnimalEnv) (n : String) (age : Option Nat)
    (tags : Option (List String)) (p : Action → Bool)
    (hw : ∀ k, p (Action.waitMs k) = false)
    (ht : ∀ f s, p (Action.typeSequentialInto f s) = false)
    (hcl : ∀ s, p (Action.clickElement s) = false)
    (htx : ∀ s, p (Action.typeText s) = false)
    (hpe : p Action.pressEnterKey = false)
    (hc : env.colourResolves = true)
    (ha : age = none ∨ env.ageEstimatedChecked = true) :
    ((animalFormTail env n age tags).1).countP p = ((animalSaveOutcome env n).1).countP p := by
  rcases age with _ | a
  · simp [animalFormTail, hc, List.countP_append, List.countP_cons, hw, ht,
      countP_tagActions p htx hpe hcl]
  · rcases ha with h | h
    · simp at h
    · simp [animalFormTail, hc, h, List.countP_append, List.countP_cons, hw, ht, hcl, htx,
        countP_tagActions p htx hpe hcl]

lemma saveClickCount_animalFormTail_le (env : AnimalEnv) (n : String) (age : Option Nat)
    (tags : Option (List String)) :
    saveClickCount (animalFormTail env n age tags).1 ≤ 1 := by
  have hout := saveClickCount_animalSaveOutcome env n
  simp only [saveClickCount] at hout
  unfold animalFormTail
  by_cases hc : env.colourResolves = false
  · simp [hc, saveClickCount, List.countP_cons, isSaveClick]
  · rcases age with _ | a
    · simp only [hc, if_false, saveClickCount, List.countP_append, List.countP_cons]
      simp [isSaveClick, countP_tagActions isSaveClick (fun s => rfl) rfl (fun s => rfl)]
      omega
    · by_cases hage : env.ageEstimatedChecked = false
      · simp [hc, hage, saveClickCount, List.countP_cons, List.countP_append, isSaveClick]
      · simp only [hc, hage, if_false, saveClickCount, List.countP_append, List.countP_cons]
        simp [isSaveClick, countP_tagActions isSaveClick (fun s => rfl) rfl (fun s => rfl)]
        omega

lemma createContact_resolved (env : ContactEnv) (fn ln : String)
    (ct : ContactType ⊕ List ContactType)
    (hfl : env.filterListVisible = true) (hres : contactResolveHit env fn ln = true) :
    createContact env fn ln ct =
      ([Action.navigateTab "Contacts", Action.awaitFilterList, Action.clearSearchInput,
        Action.fillSearchInput (fn ++ " " ++ ln), Action.pressEnterOnSearch,
        Action.awaitFirstResult (contactResolvePattern ln fn)], Except.ok ()) := by
  simp [createContact, searchInSidebar, hfl, hres]

lemma createAnimal_resolved (env : AnimalEnv) (n o : String) (age : Option Nat)
    (tags : Option (List String))
    (hfl : env.filterListVisible = true) (hres : animalResolveHit env n = true) :
    createAnimal env n o age tags =
      ([Action.navigateTab "Patients", Action.awaitFilterList, Action.clearSearchInput,
        Action.fillSearchInput n, Action.pressEnterOnSearch,
        Action.awaitFirstResult (animalResolvePattern n)], Except.ok ()) := by
  simp [createAnimal, searchInSidebar, hfl, hres]

lemma createAnimal_matchPath (env : AnimalEnv) (n o : String) (age : Option Nat)
    (tags : Option (List String))
    (hfl : env.filterListVisible = true) (hres : animalResolveHit env n = false)
    (hm : (env.ownerFilterItems.filter fun item => hasTextCI item o).isEmpty = false) :
    createAnimal env n o age tags =
      (animalCreatePrefix n o ++
        Action.clickFilterItemMatching o :: (animalFormTail env n age tags).1,
       (animalFormTail env n age tags).2) := by
  simp [createAnimal, searchInSidebar, animalCreatePrefix, hfl, hres, hm]

lemma createAnimal_fallbackPath (env : AnimalEnv) (n o : String) (age : Option Nat)
    (tags : Option (List String))
    (hfl : env.filterListVisible = true) (hres : animalResolveHit env n = false)
    (hm : (env.ownerFilterItems.filter fun item => hasTextCI item o).isEmpty = true)
    (hitems : env.ownerFilterItems.isEmpty = false) :
    createAnimal env n o age tags =
      (animalCreatePrefix n o ++
        Action.clickFirstFilterItem :: (animalFormTail env n age tags).1,
       (animalFormTail env n age tags).2) := by
  simp [createAnimal, searchInSidebar, animalCreatePrefix, hfl, hres, hm, hitems]

lemma saveClickCount_createAnimal_le (env : AnimalEnv) (n o : String) (age : Option Nat)
    (tags : Option (List String)) :
    saveClickCount (createAnimal env n o age tags).1 ≤ 1 := by
  have htail := saveClickCount_animalFormTail_le env n age tags
  simp only [saveClickCount] at htail
  by_cases hfl : env.filterListVisible = false
  · simp [createAnimal, hfl, saveClickCount, List.countP_cons, isSaveClick]
  · rw [Bool.not_eq_false] at hfl
    by_cases hres : animalResolveHit env n
    · rw [createAnimal_resolved env n o age tags hfl hres]
      simp [saveClickCount, List.countP_cons, isSaveClick]
    · rw [Bool.not_eq_true] at hres
      by_cases hm : (env.ownerFilterItems.filter fun item => hasTextCI item o).isEmpty = false
      · rw [createAnimal_matchPath env n o age tags hfl hres hm]
        simp only [saveClickCount, List.countP_append, List.countP_cons]
        simp [isSaveClick, animalCreatePrefix]
        omega
      · rw [Bool.not_eq_false] at hm
        by_cases hitems : env.ownerFilterItems.isEmpty = false
        · rw [createAnimal_fallbackPath env n o age tags hfl hres hm hitems]
          simp only [saveClickCount, List.countP_append, List.countP_cons]
          simp [isSaveClick, animalCreatePrefix]
          omega
        · rw [Bool.not_eq_false] at hitems
          simp [createAnimal, searchInSidebar, hfl, hres, hm, hitems, saveClickCount,
            List.countP_append, List.countP_cons, isSaveClick]

lemma saveClickCount_createContact_le (env : ContactEnv) (fn ln : String)
    (ct : ContactType ⊕ List ContactType) :
    saveClickCount (createContact env fn ln ct).1 ≤ 1 := by
  by_cases hfl : env.filterListVisible = false
  · simp [createContact, hfl, saveClickCount, List.countP_cons, isSaveClick]
  · rw [Bool.not_eq_false] at hfl
    by_cases hres : contactResolveHit env fn ln
    · rw [createContact_resolved env fn ln ct hfl hres]
      simp [saveClickCount, List.countP_cons, isSaveClick]
    · rw [Bool.not_eq_true] at hres
      by_cases hmail : env.emailTypeResolves = false
      · simp [createContact, searchInSidebar, hfl, hres, hmail, saveClickCount,
          List.countP_append, List.countP_cons, isSaveClick,
          countP_checkboxClicks isSaveClick (fun s => rfl)]
      · by_cases hsb : env.sidebarShowsContact <;>
          simp [createContact, searchInSidebar, hfl, hres, hmail, hsb, saveClickCount,
            List.countP_append, List.countP_cons, isSaveClick,
            countP_checkboxClicks isSaveClick (fun s => rfl)]

lemma filterMap_checkboxLabelOf_typeClicks (l : List ContactType) :
    List.filterMap (checkboxLabelOf ∘ fun t => Action.clickCheckbox t.label) l =
      l.map ContactType.label := by
  induction l with
  | nil => rfl
  | cons t ts ih => simp [List.filterMap_cons, checkboxLabelOf, Function.comp, ih]

lemma checkboxClickLabels_createContact (env : ContactEnv) (fn ln : String)
    (types : List ContactType)
    (hfl : env.filterListVisible = true) (hres : contactResolveHit env fn ln = false) :
    checkboxClickLabels (createContact env fn ln (Sum.inr types)).1 =
      "Customer" :: types.map ContactType.label := by
  by_cases hmail : env.emailTypeResolves = false
  · simp [createContact, searchInSidebar, hfl, hres, hmail, normalizeContactTypes,
      checkboxClickLabels, List.filterMap_append, List.filterMap_cons, checkboxLabelOf,
      filterMap_checkboxLabelOf_typeClicks]
  · by_cases hsb : env.sidebarShowsContact <;>
      simp [createContact, searchInSidebar, hfl, hres, hmail, hsb, normalizeContactTypes,
        checkboxClickLabels, List.filterMap_append, List.filterMap_cons, checkboxLabelOf,
        filterMap_checkboxLabelOf_typeClicks]

lemma label_inj : Function.Injective ContactType.label := by
  intro a b h
  cases a <;> cases b <;> first | rfl | exact absurd h (by decide)

lemma foldl_toggleLabel_fresh :
    ∀ (l : List String) (acc : Finset String), l.Nodup → (∀ x ∈ l, x ∉ acc) →
      l.foldl toggleLabel acc = acc ∪ l.toFinset
  | [], acc, _, _ => by simp
  | x :: xs, acc, hnd, hfresh => by
    have hx : x ∉ acc := hfresh x (List.mem_cons_self x xs)
    have hnd' := List.nodup_cons.mp hnd
    have hstep : toggleLabel acc x = insert x acc := by simp [toggleLabel, hx]
    have hrec := foldl_toggleLabel_fresh xs (insert x acc) hnd'.2 (by
      intro y hy hmem
      rcases Finset.mem_insert.mp hmem with h | h
      · exact hnd'.1 (h ▸ hy)
      · exact hfresh y (List.mem_cons_of_mem x hy) h)
    rw [List.foldl_cons, hstep, hrec]
    ext y
    simp [Finset.mem_union, Finset.mem_insert]

lemma withOwnerSaveOutcome_error (env : WithOwnerEnv) (msg : String)
    (h : env.errorToast = some msg) (hm : msg.data.isEmpty = false) :
    withOwnerSaveOutcome env =
      ([Action.clickSave 1, Action.waitMs 3000, Action.checkErrorToast],
       Except.error ("Failed to create animal: " ++ msg)) := by
  simp [withOwnerSaveOutcome, toastTruthy, h, hm]

lemma withOwnerSaveOutcome_noError (env : WithOwnerEnv)
    (h : toastTruthy env.errorToast = false) :
    withOwnerSaveOutcome env =
      ([Action.clickSave 1, Action.waitMs 3000, Action.checkErrorToast,
        Action.checkSuccessToast], Except.ok ()) := by
  cases hs : toastTruthy env.successToast <;> simp [withOwnerSaveOutcome, h, hs]

lemma createAnimalWithOwner_result (env : WithOwnerEnv) (n fn ln : String)
    (age : Option Nat) (tags : Option (List String))
    (hc : env.colourResolves = true) (ha : age = none ∨ env.ageEstimatedChecked = true) :
    (createAnimalWithOwner env n fn ln age tags).2 = (withOwnerSaveOutcome env).2 := by
  rcases age with _ | a
  · simp [createAnimalWithOwner, hc]
  · rcases ha with h | h
    · simp at h
    · simp [createAnimalWithOwner, hc, h]

lemma countP_createAnimalWithOwner (env : WithOwnerEnv) (n fn ln : String)
    (age : Option Nat) (tags : Option (List String)) (p : Action → Bool)
    (hff : ∀ f v, p (Action.fillField f v) = false)
    (hw : ∀ k, p (Action.waitMs k) = false)
    (ht : ∀ f s, p (Action.typeSequentialInto f s) = false)
    (hcl : ∀ s, p (Action.clickElement s) = false)
    (htx : ∀ s, p (Action.typeText s) = false)
    (hpe : p Action.pressEnterKey = false)
    (hc : env.colourResolves = true) (ha : age = none ∨ env.ageEstimatedChecked = true) :
    (createAnimalWithOwner env n fn ln age tags).1.countP p =
      (withOwnerSaveOutcome env).1.countP p := by
  rcases age with _ | a
  · simp [createAnimalWithOwner, hc, List.countP_append, List.countP_cons, hff, hw, ht,
      countP_tagActions p htx hpe hcl]
  · rcases ha with h | h
    · simp at h
    · simp [createAnimalWithOwner, hc, h, List.countP_append, List.countP_cons, hff, hw, ht,
        hcl, htx, countP_tagActions p htx hpe hcl]

lemma resolvePhaseCount_withOwnerSaveOutcome (env : WithOwnerEnv) :
    resolvePhaseCount (withOwnerSaveOutcome env).1 = 0 := by
  unfold withOwnerSaveOutcome
  cases hE : toastTruthy env.errorToast <;> cases hS : toastTruthy env.successToast <;>
    simp [hE, hS] <;> rfl

lemma resolvePhaseCount_createAnimalWithOwner (env : WithOwnerEnv) (n fn ln : String)
    (age : Option Nat) (tags : Option (List String)) :
    resolvePhaseCount (createAnimalWithOwner env n fn ln age tags).1 = 0 := by
  have hout := resolvePhaseCount_withOwnerSaveOutcome env
  simp only [resolvePhaseCount] at hout
  unfold createAnimalWithOwner
  by_cases hc : env.colourResolves = false
  · simp [hc, resolvePhaseCount, List.countP_cons, isResolvePhaseAction]
  · rcases age with _ | a
    · simp only [hc, if_false, resolvePhaseCount, List.countP_append, List.countP_cons]
      simp [isResolvePhaseAction, hout,
        countP_tagActions isResolvePhaseAction (fun s => rfl) rfl (fun s => rfl)]
    · by_cases hage : env.ageEstimatedChecked = false
      · simp [hc, hage, resolvePhaseCount, List.countP_cons, List.countP_append,
          isResolvePhaseAction]
      · simp only [hc, hage, if_false, resolvePhaseCount, List.countP_append, List.countP_cons]
        simp [isResolvePhaseAction, hout,
          countP_tagActions isResolvePhaseAction (fun s => rfl) rfl (fun s => rfl)]

lemma head_createAnimalWithOwner (env : WithOwnerEnv) (n fn ln : String)
    (age : Option Nat) (tags : Option (List String)) :
    (createAnimalWithOwner env n fn ln age tags).1.head? =
      some (Action.fillField "animaldata_name" n) := by
  unfold createAnimalWithOwner
  by_cases hc : env.colourResolves = false
  · simp [hc]
  · rcases age with _ | a
    · simp [hc]
    · by_cases hage : env.ageEstimatedChecked = false
      · simp [hc, hage]
      · simp [hc, hage]

lemma probeCounts_createAnimal (env : AnimalEnv) (n o : String) (age : Option Nat)
    (tags : Option (List String))
    (hfl : env.filterListVisible = true) (hres : animalResolveHit env n = false)
    (hitems : env.ownerFilterItems.isEmpty = false) :
    successCheckCount (createAnimal env n o age tags).1 =
        successCheckCount (animalFormTail env n age tags).1 ∧
      errorCheckCount (createAnimal env n o age tags).1 =
        errorCheckCount (animalFormTail env n age tags).1 ∧
      sidebarRecheckCount (createAnimal env n o age tags).1 =
        sidebarRecheckCount (animalFormTail env n age tags).1 ∧
      firstItemClickCount (animalFormTail env n age tags).1 = 0 := by
  have htail : firstItemClickCount (animalFormTail env n age tags).1 = 0 := by
    have hout : firstItemClickCount (animalSaveOutcome env n).1 = 0 := by
      unfold animalSaveOutcome
      cases hE : toastTruthy env.errorToast <;> cases hS : toastTruthy env.successToast <;>
        by_cases h : env.sidebarShowsAnimal <;> simp [hE, hS, h] <;> rfl
    simp only [firstItemClickCount] at hout ⊢
    unfold animalFormTail
    by_cases hc : env.colourResolves = false
    · simp [hc, List.countP_cons, isFirstItemClick]
    · rcases age with _ | a
      · simp only [hc, if_false, List.countP_append, List.countP_cons]
        simp [isFirstItemClick, hout,
          countP_tagActions isFirstItemClick (fun s => rfl) rfl (fun s => rfl)]
      · by_cases hage : env.ageEstimatedChecked = false
        · simp [hc, hage, List.countP_cons, List.countP_append, isFirstItemClick]
        · simp only [hc, hage, if_false, List.countP_append, List.countP_cons]
          simp [isFirstItemClick, hout,
            countP_tagActions isFirstItemClick (fun s => rfl) rfl (fun s => rfl)]
  by_cases hm : (env.ownerFilterItems.filter fun item => hasTextCI item o).isEmpty = false
  · rw [createAnimal_matchPath env n o age tags hfl hres hm]
    refine ⟨?_, ?_, ?_, htail⟩ <;>
      simp [successCheckCount, errorCheckCount, sidebarRecheckCount, List.countP_append,
        List.countP_cons, isSuccessToastCheck, isErrorToastCheck, isSidebarRecheck,
        animalCreatePrefix]
  · rw [Bool.not_eq_false] at hm
    rw [createAnimal_fallbackPath env n o age tags hfl hres hm hitems]
    refine ⟨?_, ?_, ?_, htail⟩ <;>
      simp [successCheckCount, errorCheckCount, sidebarRecheckCount, List.countP_append,
        List.countP_cons, isSuccessToastCheck, isErrorToastCheck, isSidebarRecheck,
        animalCreatePrefix]

lemma filterMap_searchFillTextOf_tagEntry :
    ∀ l : List String, (tagEntryActions l).filterMap searchFillTextOf = []
  | [] => rfl
  | t :: ts => by
    simp [tagEntryActions, List.filterMap_cons, searchFillTextOf,
      filterMap_searchFillTextOf_tagEntry ts]

lemma filterMap_searchFillTextOf_tagActions (tg : Option (List String)) :
    (tagActions tg).filterMap searchFillTextOf = [] := by
  cases tg with
  | none => rfl
  | some l =>
    simp [tagActions, List.filterMap_cons, searchFillTextOf,
      filterMap_searchFillTextOf_tagEntry l]

lemma fillSearchTexts_animalFormTail (env : AnimalEnv) (n : String) (age : Option Nat)
    (tags : Option (List String)) :
    fillSearchTexts (animalFormTail env n age tags).1 = [] := by
  have hout := fillSearchTexts_animalSaveOutcome env n
  simp only [fillSearchTexts] at hout ⊢
  unfold animalFormTail
  by_cases hc : env.colourResolves = false
  · simp [hc, List.filterMap_cons, searchFillTextOf]
  · rcases age with _ | a
    · simp [hc, List.filterMap_append, List.filterMap_cons, searchFillTextOf, hout,
        filterMap_searchFillTextOf_tagActions]
    · by_cases hage : env.ageEstimatedChecked = false
      · simp [hc, hage, List.filterMap_cons, List.filterMap_append, searchFillTextOf]
      · simp [hc, hage, List.filterMap_append, List.filterMap_cons, searchFillTextOf, hout,
          filterMap_searchFillTextOf_tagActions]

lemma fillSearchTexts_createAnimal (env : AnimalEnv) (n o : String) (age : Option Nat)
    (tags : Option (List String))
    (hfl : env.filterListVisible = true) (hres : animalResolveHit env n = false)
    (hitems : env.ownerFilterItems.isEmpty = false) :
    fillSearchTexts (createAnimal env n o age tags).1 = [n, o] := by
  have htail := fillSearchTexts_animalFormTail env n age tags
  simp only [fillSearchTexts] at htail ⊢
  by_cases hm : (env.ownerFilterItems.filter fun item => hasTextCI item o).isEmpty = false
  · rw [createAnimal_matchPath env n o age tags hfl hres hm]
    simp [List.filterMap_append, List.filterMap_cons, searchFillTextOf, animalCreatePrefix, htail]
  · rw [Bool.not_eq_false] at hm
    rw [createAnimal_fallbackPath env n o age tags hfl hres hm hitems]
    simp [List.filterMap_append, List.filterMap_cons, searchFillTextOf, animalCreatePrefix, htail]

lemma createAnimal_result_createPath (env : AnimalEnv) (n o : String) (age : Option Nat)
    (tags : Option (List String))
    (hfl : env.filterListVisible = true) (hres : animalResolveHit env n = false)
    (hitems : env.ownerFilterItems.isEmpty = false) :
    (createAnimal env n o age tags).2 = (animalFormTail env n age tags).2 := by
  by_cases hm : (env.ownerFilterItems.filter fun item => hasTextCI item o).isEmpty = false
  · rw [createAnimal_matchPath env n o age tags hfl hres hm]
  · rw [Bool.not_eq_false] at hm
    rw [createAnimal_fallbackPath env n o age tags hfl hres hm hitems]

lemma countP_animalSaveOutcome (env : AnimalEnv) (n : String) (p : Action → Bool)
    (hs : ∀ k, p (Action.clickSave k) = false)
    (hw : ∀ k, p (Action.waitMs k) = false)
    (he : p Action.checkErrorToast = false)
    (hsc : p Action.checkSuccessToast = false)
    (hsb : ∀ q, p (Action.checkSidebarText q) = false) :
    (animalSaveOutcome env n).1.countP p = 0 := by
  unfold animalSaveOutcome
  cases hE : toastTruthy env.errorToast <;> cases hS : toastTruthy env.successToast <;>
    by_cases h : env.sidebarShowsAnimal <;>
    simp [hE, hS, h, List.countP_append, List.countP_cons, hs, hw, he, hsc, hsb]

lemma countP_withOwnerSaveOutcome (env : WithOwnerEnv) (p : Action → Bool)
    (hs : ∀ k, p (Action.clickSave k) = false)
    (hw : ∀ k, p (Action.waitMs k) = false)
    (he : p Action.checkErrorToast = false)
    (hsc : p Action.checkSuccessToast = false) :
    (withOwnerSaveOutcome env).1.countP p = 0 := by
  unfold withOwnerSaveOutcome
  cases hE : toastTruthy env.errorToast <;> cases hS : toastTruthy env.successToast <;>
    simp [hE, hS, List.countP_append, List.countP_cons, hs, hw, he, hsc]

lemma saveClickCount_withOwnerSaveOutcome (env : WithOwnerEnv) :
    (withOwnerSaveOutcome env).1.countP isSaveClick = 1 := by
  unfold withOwnerSaveOutcome
  cases hE : toastTruthy env.errorToast <;> cases hS : toastTruthy env.successToast <;>
    simp [hE, hS] <;> rfl

/-- C4: the resolve-phase existence check matches the first search result
against the pattern "-  lastName, firstName" for contacts and against the
double-quoted name for patients; in particular "Smith, John" does not
resolve against a first result reading "Smithson, Johnny". -/
theorem resolve_pattern_exactness :
    contactResolvePattern "Smith" "John" = "-  Smith, John" ∧
    animalResolvePattern "Rex" = "\"Rex\"" ∧
    contactResolveHit ⟨true, some "-  Smithson, Johnny", true, true⟩ "John" "Smith" = false ∧
    contactResolveHit ⟨true, some "-  Smith, John", true, true⟩ "John" "Smith" = true ∧
    animalResolveHit ⟨true, some "\"Rex\" - Canine", [], true, true, none, none, true⟩
      "Rex" = true ∧
    animalResolveHit ⟨true, some "Rexford", [], true, true, none, none, true⟩ "Rex" = false := by
  refine ⟨rfl, rfl, ?_, ?_, ?_, ?_⟩ <;> decide

/-- C1: when the resolve-phase probe matches the first result, both
creators return as already-existing with no form fill, no checkbox click
and no Save click; hence a second call whose resolve phase hits performs
no create action, and across two successive calls the create path (one
Save click) runs at most once. -/
theorem resolve_or_create_idempotent :
    (∀ (env : ContactEnv) (fn ln : String) (ct : ContactType ⊕ List ContactType),
      env.filterListVisible = true → contactResolveHit env fn ln = true →
        (createContact env fn ln ct).2 = Except.ok () ∧
        saveClickCount (createContact env fn ln ct).1 = 0 ∧
        formFillCount (createContact env fn ln ct).1 = 0 ∧
        checkboxClickCount (createContact env fn ln ct).1 = 0) ∧
    (∀ (env : AnimalEnv) (n o : String) (age : Option Nat) (tags : Option (List String)),
      env.filterListVisible = true → animalResolveHit env n = true →
        (createAnimal env n o age tags).2 = Except.ok () ∧
        saveClickCount (createAnimal env n o age tags).1 = 0 ∧
        formFillCount (createAnimal env n o age tags).1 = 0) ∧
    (∀ (env1 env2 : ContactEnv) (fn ln : String) (ct : ContactType ⊕ List ContactType),
      env2.filterListVisible = true → contactResolveHit env2 fn ln = true →
        saveClickCount (createContact env1 fn ln ct).1 +
          saveClickCount (createContact env2 fn ln ct).1 ≤ 1) ∧
    (∀ (env1 env2 : AnimalEnv) (n o : String) (age : Option Nat)
        (tags : Option (List String)),
      env2.filterListVisible = true → animalResolveHit env2 n = true →
        saveClickCount (createAnimal env1 n o age tags).1 +
          saveClickCount (createAnimal env2 n o age tags).1 ≤ 1) := by
  refine ⟨?_, ?_, ?_, ?_⟩
  · intro env fn ln ct hfl hres
    rw [createContact_resolved env fn ln ct hfl hres]
    exact ⟨rfl, rfl, rfl, rfl⟩
  · intro env n o age tags hfl hres
    rw [createAnimal_resolved env n o age tags hfl hres]
    exact ⟨rfl, rfl, rfl⟩
  · intro env1 env2 fn ln ct hfl hres
    have h1 := saveClickCount_createContact_le env1 fn ln ct
    have h2 : saveClickCount (createContact env2 fn ln ct).1 = 0 := by
      rw [createContact_resolved env2 fn ln ct hfl hres]; rfl
    omega
  · intro env1 env2 n o age tags hfl hres
    have h1 := saveClickCount_createAnimal_le env1 n o age tags
    have h2 : saveClickCount (createAnimal env2 n o age tags).1 = 0 := by
      rw [createAnimal_resolved env2 n o age tags hfl hres]; rfl
    omega

/-- Witness for C1 at concrete inputs: a contact whose resolve probe hits
returns resolved with no Save click, two such calls sum to at most one
Save click, and the same for an animal. -/
theorem resolve_or_create_idempotent_witness :
    (createContact ⟨true, some "-  Smith, John", true, true⟩ "John" "Smith"
        (Sum.inl ContactType.Customer)).2 = Except.ok () ∧
    saveClickCount (createContact ⟨true, some "-  Smith, John", true, true⟩ "John" "Smith"
        (Sum.inl ContactType.Customer)).1 +
      saveClickCount (createContact ⟨true, some "-  Smith, John", true, true⟩ "John" "Smith"
        (Sum.inl ContactType.Customer)).1 ≤ 1 ∧
    (createAnimal ⟨true, some "\"Rex\"", [], true, true, none, none, true⟩ "Rex"
        "Smith, John" none none).2 = Except.ok () ∧
    saveClickCount (createAnimal ⟨true, some "\"Rex\"", [], true, true, none, none, true⟩
        "Rex" "Smith, John" none none).1 +
      saveClickCount (createAnimal ⟨true, some "\"Rex\"", [], true, true, none, none, true⟩
        "Rex" "Smith, John" none none).1 ≤ 1 := by
  have h := resolve_or_create_idempotent
  exact ⟨(h.1 _ "John" "Smith" _ rfl (by decide)).1,
    h.2.2.1 _ _ "John" "Smith" _ rfl (by decide),
    (h.2.1 _ "Rex" "Smith, John" none none rfl (by decide)).1,
    h.2.2.2 _ _ "Rex" "Smith, John" none none rfl (by decide)⟩

/-- C5 counterexample: with the duplicated type list [Vet, Vet] the two
Vet clicks toggle the checkbox on and off again, so the final checked set
is empty rather than exactly the requested type set. -/
theorem contact_type_override_cx :
    finalCheckedState {"Customer"}
        (createContact ⟨true, none, true, true⟩ "John" "Smith"
          (Sum.inr [ContactType.Vet, ContactType.Vet])).1 = ∅ ∧
    ¬ finalCheckedState {"Customer"}
        (createContact ⟨true, none, true, true⟩ "John" "Smith"
          (Sum.inr [ContactType.Vet, ContactType.Vet])).1 = {"Vet"} := by
  constructor <;> decide

/-- C5 amended: on the create path the pre-checked Customer checkbox is
clicked first, before every desired-type checkbox, and — with the form
opening with exactly Customer checked and toggle semantics — the final
checked set is exactly the requested types, provided the requested type
list is duplicate-free. -/
theorem contact_type_override_amended :
    ∀ (env : ContactEnv) (fn ln : String) (types : List ContactType),
      env.filterListVisible = true → contactResolveHit env fn ln = false →
      types.Nodup →
      checkboxClickLabels (createContact env fn ln (Sum.inr types)).1 =
        "Customer" :: types.map ContactType.label ∧
      finalCheckedState {"Customer"} (createContact env fn ln (Sum.inr types)).1 =
        (types.map ContactType.label).toFinset := by
  intro env fn ln types hfl hres hnd
  have hlabels := checkboxClickLabels_createContact env fn ln types hfl hres
  refine ⟨hlabels, ?_⟩
  have hndm : (types.map ContactType.label).Nodup := hnd.map label_inj
  unfold finalCheckedState
  rw [hlabels, List.foldl_cons]
  have h0 : toggleLabel {"Customer"} "Customer" = ∅ := by decide
  rw [h0, foldl_toggleLabel_fresh (types.map ContactType.label) ∅ hndm
    (by intro x hx; simp)]
  simp

/-- Witness for C5 amended at the claim's own example: type list [Vet]
ends with Customer unchecked and exactly Vet checked, Customer clicked
first. -/
theorem contact_type_override_amended_witness :
    checkboxClickLabels (createContact ⟨true, none, true, true⟩ "John" "Smith"
        (Sum.inr [ContactType.Vet])).1 = ["Customer", "Vet"] ∧
    finalCheckedState {"Customer"} (createContact ⟨true, none, true, true⟩ "John" "Smith"
        (Sum.inr [ContactType.Vet])).1 = {"Vet"} := by
  have h := contact_type_override_amended ⟨true, none, true, true⟩ "John" "Smith"
    [ContactType.Vet] rfl (by decide) (by decide)
  exact ⟨h.1, h.2.trans (by decide)⟩

/-- C6: ezyVetLoginWithRetry defaults to 2 attempts, returns immediately
after a successful attempt, waits a fixed 2000 ms between attempts with no
backoff, re-runs the full login sequence on any thrown error, and after
exhausting every attempt throws a terminal error naming the attempt count
and the last underlying error message. -/
theorem login_retry_bounded :
    (∀ env : LoginEnv, ezyVetLoginWithRetry env = ezyVetLoginWithRetry env 2) ∧
    (∀ env : LoginEnv, env.attemptOutcome 1 = none →
      ezyVetLoginWithRetry env 2 = ([Action.loginAttempt 1], Except.ok ())) ∧
    (∀ (env : LoginEnv) (m : String), env.attemptOutcome 1 = some m →
      env.attemptOutcome 2 = none →
      ezyVetLoginWithRetry env 2 =
        ([Action.loginAttempt 1, Action.waitMs 2000, Action.loginAttempt 2],
         Except.ok ())) ∧
    (∀ (env : LoginEnv) (m1 m2 : String), env.attemptOutcome 1 = some m1 →
      env.attemptOutcome 2 = some m2 →
      ezyVetLoginWithRetry env 2 =
        ([Action.loginAttempt 1, Action.waitMs 2000, Action.loginAttempt 2],
         Except.error ("Login failed after 2 attempts: " ++ m2))) := by
  refine ⟨fun env => rfl, ?_, ?_, ?_⟩
  · intro env h1
    simp [ezyVetLoginWithRetry, loginRetryAux, h1]
  · intro env m h1 h2
    simp [ezyVetLoginWithRetry, loginRetryAux, h1, h2]
  · intro env m1 m2 h1 h2
    simp [ezyVetLoginWithRetry, loginRetryAux, h1, h2, loginFailureMessage]
    rfl

/-- Witness for C6 at concrete oracles: success on the first attempt, a
failure then a success, and two failures ending in the terminal error. -/
theorem login_retry_bounded_witness :
    ezyVetLoginWithRetry ⟨fun _ => none⟩ 2 = ([Action.loginAttempt 1], Except.ok ()) ∧
    ezyVetLoginWithRetry ⟨fun n => if n = 1 then some "navigation timeout" else none⟩ 2 =
      ([Action.loginAttempt 1, Action.waitMs 2000, Action.loginAttempt 2],
       Except.ok ()) ∧
    ezyVetLoginWithRetry ⟨fun _ => some "invalid credentials"⟩ 2 =
      ([Action.loginAttempt 1, Action.waitMs 2000, Action.loginAttempt 2],
       Except.error ("Login failed after 2 attempts: " ++ "invalid credentials")) := by
  have h := login_retry_bounded
  exact ⟨h.2.1 _ rfl, h.2.2.1 _ "navigation timeout" rfl rfl,
    h.2.2.2 _ "invalid credentials" "invalid credentials" rfl rfl⟩

/-- C8: selectLocation waits up to 10 s for the location heading; when it
never appears the function returns normally with no click; when it appears
the requested location is clicked via a non-exact (substring) text match,
where an absent or empty location argument falls back to the default
"Master branch (Database)" through the JavaScript `||` default. -/
theorem select_location_optional :
    (∀ (env : LocationEnv) (loc : Option String), env.headingAppears = false →
      selectLocation env loc = ([Action.awaitHeading 10000], Except.ok ())) ∧
    (∀ (env : LocationEnv) (name : String), env.headingAppears = true →
      env.locationVisible = true → name.data.isEmpty = false →
      selectLocation env (some name) =
        ([Action.awaitHeading 10000, Action.awaitText name, Action.clickText name false],
         Except.ok ())) ∧
    (∀ env : LocationEnv, env.headingAppears = true → env.locationVisible = true →
      selectLocation env none =
        ([Action.awaitHeading 10000, Action.awaitText "Master branch (Database)",
          Action.clickText "Master branch (Database)" false], Except.ok ())) ∧
    (∀ env : LocationEnv, env.headingAppears = true → env.locationVisible = true →
      selectLocation env (some "") =
        ([Action.awaitHeading 10000, Action.awaitText "Master branch (Database)",
          Action.clickText "Master branch (Database)" false], Except.ok ())) ∧
    hasTextCI "East Wing - Master branch (Database)" "Master branch (Database)" = true := by
  refine ⟨?_, ?_, ?_, ?_, by decide⟩
  · intro env loc h
    simp [selectLocation, h]
  · intro env name h1 h2 hname
    simp [selectLocation, jsOrDefault, h1, h2, hname]
  · intro env h1 h2
    simp [selectLocation, jsOrDefault, h1, h2]
  · intro env h1 h2
    simp [selectLocation, jsOrDefault, h1, h2]

/-- Witness for C8 at concrete oracles: heading absent returns normally;
heading present clicks a nonempty requested name, and both an absent and
an empty location argument click the default text non-exactly. -/
theorem select_location_optional_witness :
    selectLocation ⟨false, false⟩ none = ([Action.awaitHeading 10000], Except.ok ()) ∧
    selectLocation ⟨true, true⟩ (some "Clinic B") =
      ([Action.awaitHeading 10000, Action.awaitText "Clinic B",
        Action.clickText "Clinic B" false], Except.ok ()) ∧
    selectLocation ⟨true, true⟩ none =
      ([Action.awaitHeading 10000, Action.awaitText "Master branch (Database)",
        Action.clickText "Master branch (Database)" false], Except.ok ()) ∧
    selectLocation ⟨true, true⟩ (some "") =
      ([Action.awaitHeading 10000, Action.awaitText "Master branch (Database)",
        Action.clickText "Master branch (Database)" false], Except.ok ()) := by
  have h := select_location_optional
  exact ⟨h.1 _ none rfl, h.2.1 _ "Clinic B" rfl rfl (by decide), h.2.2.1 _ rfl rfl,
    h.2.2.2.1 _ rfl rfl⟩

/-- C9: createAnimalWithOwner performs no resolve/search-phase action in
any environment and starts by filling the patient-name field; whenever the
form steps succeed it clicks Save, so two calls with the same name perform
one Save click each with no prior existence check. -/
theorem with_owner_no_resolve_phase :
    (∀ (env : WithOwnerEnv) (n fn ln : String) (age : Option Nat)
        (tags : Option (List String)),
      resolvePhaseCount (createAnimalWithOwner env n fn ln age tags).1 = 0 ∧
      (createAnimalWithOwner env n fn ln age tags).1.head? =
        some (Action.fillField "animaldata_name" n)) ∧
    (∀ (env1 env2 : WithOwnerEnv) (n fn ln : String),
      env1.colourResolves = true → env2.colourResolves = true →
      saveClickCount (createAnimalWithOwner env1 n fn ln none none).1 = 1 ∧
      saveClickCount (createAnimalWithOwner env2 n fn ln none none).1 = 1) := by
  constructor
  · intro env n fn ln age tags
    exact ⟨resolvePhaseCount_createAnimalWithOwner env n fn ln age tags,
      head_createAnimalWithOwner env n fn ln age tags⟩
  · intro env1 env2 n fn ln h1 h2
    have w1 := countP_createAnimalWithOwner env1 n fn ln none none isSaveClick
      (fun f v => rfl) (fun k => rfl) (fun f s => rfl) (fun s => rfl) (fun s => rfl) rfl
      h1 (Or.inl rfl)
    have w2 := countP_createAnimalWithOwner env2 n fn ln none none isSaveClick
      (fun f v => rfl) (fun k => rfl) (fun f s => rfl) (fun s => rfl) (fun s => rfl) rfl
      h2 (Or.inl rfl)
    constructor
    · simp only [saveClickCount]
      rw [w1, saveClickCount_withOwnerSaveOutcome env1]
    · simp only [saveClickCount]
      rw [w2, saveClickCount_withOwnerSaveOutcome env2]

/-- Witness for C9 at a concrete environment: the call performs no
resolve-phase action and one Save click. -/
theorem with_owner_no_resolve_phase_witness :
    resolvePhaseCount (createAnimalWithOwner ⟨true, true, none, some "Record saved"⟩
        "TestPet" "Test" "Owner" none none).1 = 0 ∧
    saveClickCount (createAnimalWithOwner ⟨true, true, none, some "Record saved"⟩
        "TestPet" "Test" "Owner" none none).1 = 1 := by
  have h := with_owner_no_resolve_phase
  exact ⟨(h.1 _ "TestPet" "Test" "Owner" none none).1,
    (h.2 ⟨true, true, none, some "Record saved"⟩ ⟨true, true, none, some "Record saved"⟩
      "TestPet" "Test" "Owner" rfl rfl).1⟩

/-- C10: in createAnimal's owner selection, when no filter item contains
the requested owner name, the helper clicks the first item in the list
instead, continues to Save, and — with a truthy (nonempty-text) success
toast — reports success without any error. -/
theorem owner_fallback_first_item :
    ∀ (env : AnimalEnv) (n o s : String),
      env.filterListVisible = true →
      animalResolveHit env n = false →
      env.ownerFilterItems.isEmpty = false →
      (env.ownerFilterItems.filter fun item => hasTextCI item o).isEmpty = true →
      env.colourResolves = true →
      env.errorToast = none →
      env.successToast = some s →
      s.data.isEmpty = false →
      (createAnimal env n o none none).2 = Except.ok () ∧
      firstItemClickCount (createAnimal env n o none none).1 = 1 ∧
      matchItemClickCount (createAnimal env n o none none).1 = 0 := by
  intro env n o s hfl hres hitems hm hc hE hS hs
  have hEt : toastTruthy env.errorToast = false := by rw [hE]; rfl
  have hfir := countP_animalFormTail env n none none isFirstItemClick
    (fun k => rfl) (fun f s => rfl) (fun s => rfl) (fun s => rfl) rfl hc (Or.inl rfl)
  have hmat := countP_animalFormTail env n none none isMatchItemClick
    (fun k => rfl) (fun f s => rfl) (fun s => rfl) (fun s => rfl) rfl hc (Or.inl rfl)
  have hfir0 := countP_animalSaveOutcome env n isFirstItemClick
    (fun k => rfl) (fun k => rfl) rfl rfl (fun q => rfl)
  have hmat0 := countP_animalSaveOutcome env n isMatchItemClick
    (fun k => rfl) (fun k => rfl) rfl rfl (fun q => rfl)
  refine ⟨?_, ?_, ?_⟩
  · rw [createAnimal_result_createPath env n o none none hfl hres hitems,
      animalFormTail_result env n none none hc (Or.inl rfl),
      animalSaveOutcome_success env n s hEt hS hs]
  · rw [createAnimal_fallbackPath env n o none none hfl hres hm hitems]
    simp only [firstItemClickCount, List.countP_append, List.countP_cons]
    rw [hfir, hfir0]
    simp [isFirstItemClick, animalCreatePrefix, List.countP_cons]
  · rw [createAnimal_fallbackPath env n o none none hfl hres hm hitems]
    simp only [matchItemClickCount, List.countP_append, List.countP_cons]
    rw [hmat, hmat0]
    simp [isMatchItemClick, animalCreatePrefix, List.countP_cons]

/-- Witness for C10 at a concrete environment: the rendered owner list
holds only "Jones, Bob", the requested owner is "Smith, John", and the
call still saves and reports success after clicking the first item. -/
theorem owner_fallback_first_item_witness :
    (createAnimal ⟨true, none, ["Jones, Bob"], true, true, none, some "Record saved", true⟩
        "Rex" "Smith, John" none none).2 = Except.ok () ∧
    firstItemClickCount (createAnimal ⟨true, none, ["Jones, Bob"], true, true, none,
        some "Record saved", true⟩ "Rex" "Smith, John" none none).1 = 1 := by
  have h := owner_fallback_first_item
    ⟨true, none, ["Jones, Bob"], true, true, none, some "Record saved", true⟩
    "Rex" "Smith, John" "Record saved" rfl (by decide) (by decide) (by decide) rfl rfl rfl
    (by decide)
  exact ⟨h.1, h.2.1⟩

/-- C2 counterexample: a createAnimalWithOwner call in which neither toast
appears performs no sidebar existence re-check at all and still returns
success, so the unknown-outcome fallback the claim asserts for every
patient-creation call does not happen in this variant. -/
theorem unknown_outcome_fallback_cx :
    (createAnimalWithOwner ⟨true, true, none, none⟩ "TestPet1730000000000" "Test"
        "Owner1730000000000" none none).2 = Except.ok () ∧
    sidebarRecheckCount (createAnimalWithOwner ⟨true, true, none, none⟩
        "TestPet1730000000000" "Test" "Owner1730000000000" none none).1 = 0 := by
  exact ⟨rfl, rfl⟩

/-- C2 amended: when neither toast appears, createAnimal falls back to one
positive sidebar re-check and succeeds exactly when that re-check does,
propagating a failure otherwise; createAnimalWithOwner performs no
re-check and reports success optimistically. -/
theorem unknown_outcome_fallback_amended :
    (∀ (env : AnimalEnv) (n o : String) (age : Option Nat) (tags : Option (List String)),
      env.filterListVisible = true → animalResolveHit env n = false →
      env.ownerFilterItems.isEmpty = false → env.colourResolves = true →
      (age = none ∨ env.ageEstimatedChecked = true) →
      env.errorToast = none → env.successToast = none →
      sidebarRecheckCount (createAnimal env n o age tags).1 = 1 ∧
      ((createAnimal env n o age tags).2 = Except.ok () ↔ env.sidebarShowsAnimal = true) ∧
      (env.sidebarShowsAnimal = false →
        (createAnimal env n o age tags).2 =
          Except.error "TimeoutError: animal not visible in sidebar")) ∧
    (∀ (env : WithOwnerEnv) (n fn ln : String) (age : Option Nat)
        (tags : Option (List String)),
      env.colourResolves = true → (age = none ∨ env.ageEstimatedChecked = true) →
      env.errorToast = none → env.successToast = none →
      (createAnimalWithOwner env n fn ln age tags).2 = Except.ok () ∧
      sidebarRecheckCount (createAnimalWithOwner env n fn ln age tags).1 = 0) := by
  constructor
  · intro env n o age tags hfl hres hitems hc ha hE hS
    have hcnt := (probeCounts_createAnimal env n o age tags hfl hres hitems).2.2.1
    have htail := countP_animalFormTail env n age tags isSidebarRecheck
      (fun k => rfl) (fun f s => rfl) (fun s => rfl) (fun s => rfl) rfl hc ha
    have hEt : toastTruthy env.errorToast = false := by rw [hE]; rfl
    have hSt : toastTruthy env.successToast = false := by rw [hS]; rfl
    have hout := animalSaveOutcome_unknown env n hEt hSt
    have hresult : (createAnimal env n o age tags).2 =
        (if env.sidebarShowsAnimal then Except.ok ()
         else Except.error "TimeoutError: animal not visible in sidebar") := by
      rw [createAnimal_result_createPath env n o age tags hfl hres hitems,
        animalFormTail_result env n age tags hc ha, hout]
    refine ⟨?_, ?_, ?_⟩
    · rw [hcnt]
      simp only [sidebarRecheckCount] at htail ⊢
      rw [htail, hout]
      rfl
    · rw [hresult]
      cases hsb : env.sidebarShowsAnimal <;> simp [hsb]
    · intro hsbf
      rw [hresult, hsbf]
      simp
  · intro env n fn ln age tags hc ha hE hS
    have hEt : toastTruthy env.errorToast = false := by rw [hE]; rfl
    refine ⟨?_, ?_⟩
    · rw [createAnimalWithOwner_result env n fn ln age tags hc ha,
        withOwnerSaveOutcome_noError env hEt]
    · have w := countP_createAnimalWithOwner env n fn ln age tags isSidebarRecheck
        (fun f v => rfl) (fun k => rfl) (fun f s => rfl) (fun s => rfl) (fun s => rfl) rfl hc ha
      have o := countP_withOwnerSaveOutcome env isSidebarRecheck
        (fun k => rfl) (fun k => rfl) rfl rfl
      simp only [sidebarRecheckCount]
      rw [w, o]

/-- Witness for C2 amended at concrete environments: with no toast and the
sidebar showing the new animal, createAnimal re-checks once and reports
success; createAnimalWithOwner reports success with zero re-checks. -/
theorem unknown_outcome_fallback_amended_witness :
    sidebarRecheckCount (createAnimal ⟨true, none, ["Smith, John"], true, true, none, none,
        true⟩ "Rex" "Smith, John" none none).1 = 1 ∧
    (createAnimal ⟨true, none, ["Smith, John"], true, true, none, none, true⟩ "Rex"
        "Smith, John" none none).2 = Except.ok () ∧
    (createAnimalWithOwner ⟨true, true, none, none⟩ "Rex" "John" "Smith"
        none none).2 = Except.ok () := by
  have h := unknown_outcome_fallback_amended
  have ha := h.1 ⟨true, none, ["Smith, John"], true, true, none, none, true⟩ "Rex"
    "Smith, John" none none rfl (by decide) (by decide) rfl (Or.inl rfl) rfl rfl
  have hb := h.2 ⟨true, true, none, none⟩ "Rex" "John" "Smith" none none rfl
    (Or.inl rfl) rfl rfl
  exact ⟨ha.1, ha.2.1.mpr rfl, hb.1⟩

/-- C3: after Save, the error-toast probe runs first; whenever the probe
yields an error toast with truthy (nonempty) text — the source's
`if (errorToast)` notion of a toast being present — both patient creators
throw an error carrying the literal toast text, the success probe is never
evaluated, and success is never returned, even when a success toast is
also pending; an empty-text probe result is falsy in that guard and falls
through, so the success probe is then evaluated. -/
theorem error_toast_priority :
    (∀ (env : AnimalEnv) (n o : String) (age : Option Nat) (tags : Option (List String))
        (msg : String),
      env.filterListVisible = true → animalResolveHit env n = false →
      env.ownerFilterItems.isEmpty = false → env.colourResolves = true →
      (age = none ∨ env.ageEstimatedChecked = true) → env.errorToast = some msg →
      msg.data.isEmpty = false →
      (createAnimal env n o age tags).2 =
        Except.error ("Failed to create animal: " ++ msg) ∧
      successCheckCount (createAnimal env n o age tags).1 = 0 ∧
      errorCheckCount (createAnimal env n o age tags).1 = 1) ∧
    (∀ (env : WithOwnerEnv) (n fn ln : String) (age : Option Nat)
        (tags : Option (List String)) (msg : String),
      env.colourResolves = true → (age = none ∨ env.ageEstimatedChecked = true) →
      env.errorToast = some msg → msg.data.isEmpty = false →
      (createAnimalWithOwner env n fn ln age tags).2 =
        Except.error ("Failed to create animal: " ++ msg) ∧
      successCheckCount (createAnimalWithOwner env n fn ln age tags).1 = 0 ∧
      errorCheckCount (createAnimalWithOwner env n fn ln age tags).1 = 1) ∧
    (∀ (env : AnimalEnv) (n o : String) (age : Option Nat) (tags : Option (List String)),
      env.filterListVisible = true → animalResolveHit env n = false →
      env.ownerFilterItems.isEmpty = false → env.colourResolves = true →
      (age = none ∨ env.ageEstimatedChecked = true) → env.errorToast = some "" →
      successCheckCount (createAnimal env n o age tags).1 = 1) := by
  refine ⟨?_, ?_, ?_⟩
  · intro env n o age tags msg hfl hres hitems hc ha herr hmsg
    have herr2 := animalSaveOutcome_error env n msg herr hmsg
    have hsc := countP_animalFormTail env n age tags isSuccessToastCheck
      (fun k => rfl) (fun f s => rfl) (fun s => rfl) (fun s => rfl) rfl hc ha
    have hec := countP_animalFormTail env n age tags isErrorToastCheck
      (fun k => rfl) (fun f s => rfl) (fun s => rfl) (fun s => rfl) rfl hc ha
    have hpc := probeCounts_createAnimal env n o age tags hfl hres hitems
    refine ⟨?_, ?_, ?_⟩
    · rw [createAnimal_result_createPath env n o age tags hfl hres hitems,
        animalFormTail_result env n age tags hc ha, herr2]
    · rw [hpc.1]
      simp only [successCheckCount] at hsc ⊢
      rw [hsc, herr2]
      rfl
    · rw [hpc.2.1]
      simp only [errorCheckCount] at hec ⊢
      rw [hec, herr2]
      rfl
  · intro env n fn ln age tags msg hc ha herr hmsg
    have herr2 := withOwnerSaveOutcome_error env msg herr hmsg
    have wsc := countP_createAnimalWithOwner env n fn ln age tags isSuccessToastCheck
      (fun f v => rfl) (fun k => rfl) (fun f s => rfl) (fun s => rfl) (fun s => rfl) rfl hc ha
    have wec := countP_createAnimalWithOwner env n fn ln age tags isErrorToastCheck
      (fun f v => rfl) (fun k => rfl) (fun f s => rfl) (fun s => rfl) (fun s => rfl) rfl hc ha
    refine ⟨?_, ?_, ?_⟩
    · rw [createAnimalWithOwner_result env n fn ln age tags hc ha, herr2]
    · simp only [successCheckCount]
      rw [wsc, herr2]
      rfl
    · simp only [errorCheckCount]
      rw [wec, herr2]
      rfl
  · intro env n o age tags hfl hres hitems hc ha herr
    have hEt : toastTruthy env.errorToast = false := by rw [herr]; rfl
    have hsc := countP_animalFormTail env n age tags isSuccessToastCheck
      (fun k => rfl) (fun f s => rfl) (fun s => rfl) (fun s => rfl) rfl hc ha
    have hpc := probeCounts_createAnimal env n o age tags hfl hres hitems
    rw [hpc.1]
    simp only [successCheckCount] at hsc ⊢
    rw [hsc]
    exact successCheckCount_animalSaveOutcome env n hEt

/-- Witness for C3 at concrete environments in which an error toast and a
success toast are both present: both creators throw the literal error
toast text and never evaluate the success probe; with an empty-text error
probe result the success probe is evaluated instead. -/
theorem error_toast_priority_witness :
    (createAnimal ⟨true, none, ["Smith, John"], true, true, some "Failed to save record",
        some "Record saved", true⟩ "Rex" "Smith, John" none none).2 =
      Except.error ("Failed to create animal: " ++ "Failed to save record") ∧
    successCheckCount (createAnimal ⟨true, none, ["Smith, John"], true, true,
        some "Failed to save record", some "Record saved", true⟩ "Rex" "Smith, John"
        none none).1 = 0 ∧
    (createAnimalWithOwner ⟨true, true, some "Failed to save record", some "Record saved"⟩
        "Rex" "John" "Smith" none none).2 =
      Except.error ("Failed to create animal: " ++ "Failed to save record") ∧
    successCheckCount (createAnimal ⟨true, none, ["Smith, John"], true, true, some "",
        some "Record saved", true⟩ "Rex" "Smith, John" none none).1 = 1 := by
  have h := error_toast_priority
  have ha := h.1 ⟨true, none, ["Smith, John"], true, true, some "Failed to save record",
    some "Record saved", true⟩ "Rex" "Smith, John" none none "Failed to save record"
    rfl (by decide) (by decide) rfl (Or.inl rfl) rfl (by decide)
  have hb := h.2.1 ⟨true, true, some "Failed to save record", some "Record saved"⟩ "Rex"
    "John" "Smith" none none "Failed to save record" rfl (Or.inl rfl) rfl (by decide)
  have hcx := h.2.2 ⟨true, none, ["Smith, John"], true, true, some "",
    some "Record saved", true⟩ "Rex" "Smith, John" none none
    rfl (by decide) (by decide) rfl (Or.inl rfl) rfl
  exact ⟨ha.1, ha.2.1, hb.1, hcx⟩

/-- C7 counterexample: the owner search inside createAnimal fills the raw
owner name with no appended trailing space ("Smith, John" does not end in
a space), so the trailing-space sub-protocol is not followed by the owner
selection dropdown fill, unlike the appointment resource fill "Dr ". -/
theorem trailing_space_protocol_cx :
    fillSearchTexts (createAnimal ⟨true, none, ["Jones, Bob"], true, true, none,
        some "Record saved", true⟩ "Rex" "Smith, John" none none).1 =
      ["Rex", "Smith, John"] ∧
    endsInSpace "Smith, John" = false ∧
    endsInSpace appointmentResourceSearchText = true := by
  exact ⟨by decide, rfl, rfl⟩

/-- C7 amended: the appointment resource selection clicks the magnifier,
types "Dr " with a deliberately appended trailing space, waits, and clicks
the first matching item; the owner selection in createAnimal clicks the
dropdown icon but fills the owner name exactly as given, with no appended
trailing space. -/
theorem trailing_space_protocol_amended :
    endsInSpace appointmentResourceSearchText = true ∧
    appointmentResourceFlow =
      [Action.clickDropdownIcon "Resource", Action.waitMs 1500,
       Action.fillField "Resource" "Dr ", Action.waitMs 1500,
       Action.clickFilterItemMatching "Dr", Action.waitMs 1000] ∧
    (∀ (env : AnimalEnv) (n o : String) (age : Option Nat) (tags : Option (List String)),
      env.filterListVisible = true → animalResolveHit env n = false →
      env.ownerFilterItems.isEmpty = false →
      fillSearchTexts (createAnimal env n o age tags).1 = [n, o]) := by
  refine ⟨rfl, rfl, ?_⟩
  intro env n o age tags hfl hres hitems
  exact fillSearchTexts_createAnimal env n o age tags hfl hres hitems

/-- Witness for C7 amended at a concrete environment: the two search fills
of a create-path call are exactly the animal name and the raw owner name. -/
theorem trailing_space_protocol_amended_witness :
    fillSearchTexts (createAnimal ⟨true, none, ["Smith, John"], true, true, none,
        some "Record saved", true⟩ "Rex" "Smith, John" none none).1 =
      ["Rex", "Smith, John"] := by
  exact trailing_space_protocol_amended.2.2
    ⟨true, none, ["Smith, John"], true, true, none, some "Record saved", true⟩
    "Rex" "Smith, John" none none rfl (by decide) (by decide)

end UIAuto
